import Mathlib

/-!
Verification of the awsToolz resource lifecycle engine.

The Python sources (`wipeIt/aws_destroyer.py`, `wipeIt/aws_inventory.py`,
`wipeIt/app.py`, `ARNssassin.py`) are shallowly embedded below.  The cloud
provider is modelled as an environment of response functions: each remote
call either succeeds (`Except.ok`) or raises an exception whose message is
the `Except.error` payload.  Each embedded operation returns, alongside its
result, the list of provider calls it issued, so that ordering and
absence-of-call properties can be stated directly.
-/

namespace AwsToolz

/-- The `status` field of the result dict built by each `delete_*` method of
`AWSDestroyer` (`'deleted'` or `'failed'`). -/
inductive Outcome where
  | deleted
  | failed
deriving DecidableEq, Repr

/-- One deletion result record, mirroring the dict
`{'resource': ..., 'status': ..., 'type': ..., 'error': ...?}` returned by
the `AWSDestroyer.delete_*` methods. -/
structure DeletionResult where
  resource : String
  type : String
  outcome : Outcome
  error : Option String := none
deriving DecidableEq, Repr

/-- A provider call issued by the embedded code.  `deleteObjects` carries the
`(Key, VersionId)` pairs of its batch. -/
inductive Call where
  | deleteFunction (name : String)
  | deleteRestApi (apiId : String)
  | deleteQueue (queueUrl : String)
  | modifyInstanceAttribute (instanceId : String)
  | terminateInstances (instanceId : String)
  | deleteLogGroup (name : String)
  | describeVolumes (volumeId : String)
  | detachVolume (volumeId : String)
  | waitVolumeAvailable (volumeId : String)
  | deleteVolume (volumeId : String)
  | deleteObjects (bucket : String) (objects : List (String × String))
  | deleteBucket (bucket : String)
  | deleteDbInstance (dbId : String)
  | deleteSecret (secretId : String)
deriving DecidableEq, Repr

/-- One page of the `list_object_versions` paginator: the `(Key, VersionId)`
pairs of its `Versions` and of its `DeleteMarkers`. -/
structure S3Page where
  versions : List (String × String)
  deleteMarkers : List (String × String)
deriving DecidableEq, Repr

/-- The provider environment seen by `AWSDestroyer`: the outcome of each
possible remote call.  `Except.error e` models the call raising an exception
with message `e`. -/
structure Env where
  lambdaDelete : String → Except String Unit
  apiGatewayDelete : String → Except String Unit
  sqsDelete : String → Except String Unit
  ec2Modify : String → Except String Unit
  ec2Terminate : String → Except String Unit
  logsDelete : String → Except String Unit
  ebsDescribe : String → Except String (List String)
  ebsDetach : String → Except String Unit
  ebsWait : String → Except String Unit
  ebsDelete : String → Except String Unit
  s3ListPages : String → Except String (List S3Page)
  s3DeleteObjects : String → List (String × String) → Except String Unit
  s3DeleteBucket : String → Except String Unit

/-- `AWSDestroyer.delete_lambda`: one `delete_function` call; any exception is
caught and becomes a failed result carrying the message. -/
def delete_lambda (env : Env) (function_name : String) : DeletionResult × List Call :=
  match env.lambdaDelete function_name with
  | .ok _ => (⟨function_name, "lambda", .deleted, none⟩, [.deleteFunction function_name])
  | .error e => (⟨function_name, "lambda", .failed, some e⟩, [.deleteFunction function_name])

/-- `AWSDestroyer.delete_api_gateway`: one `delete_rest_api` call. -/
def delete_api_gateway (env : Env) (api_id : String) : DeletionResult × List Call :=
  match env.apiGatewayDelete api_id with
  | .ok _ => (⟨api_id, "api_gateway", .deleted, none⟩, [.deleteRestApi api_id])
  | .error e => (⟨api_id, "api_gateway", .failed, some e⟩, [.deleteRestApi api_id])

/-- `AWSDestroyer.delete_sqs`: one `delete_queue` call. -/
def delete_sqs (env : Env) (queue_url : String) : DeletionResult × List Call :=
  match env.sqsDelete queue_url with
  | .ok _ => (⟨queue_url, "sqs", .deleted, none⟩, [.deleteQueue queue_url])
  | .error e => (⟨queue_url, "sqs", .failed, some e⟩, [.deleteQueue queue_url])

/-- `AWSDestroyer.delete_ec2`: the `modify_instance_attribute` call (clearing
termination protection) is issued first inside its own try/except whose
failure is only logged, so its outcome is ignored; then `terminate_instances`
is issued and alone determines the result. -/
def delete_ec2 (env : Env) (instance_id : String) : DeletionResult × List Call :=
  match env.ec2Terminate instance_id with
  | .ok _ =>
      (⟨instance_id, "ec2", .deleted, none⟩,
       [.modifyInstanceAttribute instance_id, .terminateInstances instance_id])
  | .error e =>
      (⟨instance_id, "ec2", .failed, some e⟩,
       [.modifyInstanceAttribute instance_id, .terminateInstances instance_id])

/-- `AWSDestroyer.delete_cloudwatch_logs`: one `delete_log_group` call. -/
def delete_cloudwatch_logs (env : Env) (log_group_name : String) : DeletionResult × List Call :=
  match env.logsDelete log_group_name with
  | .ok _ => (⟨log_group_name, "cloudwatch_logs", .deleted, none⟩, [.deleteLogGroup log_group_name])
  | .error e => (⟨log_group_name, "cloudwatch_logs", .failed, some e⟩, [.deleteLogGroup log_group_name])

/-- `AWSDestroyer.delete_ebs`: `describe_volumes` first; if the volume has
attachments, `detach_volume` then the `volume_available` waiter must succeed
before `delete_volume` is issued; any exception along the way becomes a
failed result and stops the sequence. -/
def delete_ebs (env : Env) (volume_id : String) : DeletionResult × List Call :=
  match env.ebsDescribe volume_id with
  | .error e => (⟨volume_id, "ebs", .failed, some e⟩, [.describeVolumes volume_id])
  | .ok attachments =>
    if attachments.isEmpty then
      match env.ebsDelete volume_id with
      | .ok _ =>
          (⟨volume_id, "ebs", .deleted, none⟩,
           [.describeVolumes volume_id, .deleteVolume volume_id])
      | .error e =>
          (⟨volume_id, "ebs", .failed, some e⟩,
           [.describeVolumes volume_id, .deleteVolume volume_id])
    else
      match env.ebsDetach volume_id with
      | .error e =>
          (⟨volume_id, "ebs", .failed, some e⟩,
           [.describeVolumes volume_id, .detachVolume volume_id])
      | .ok _ =>
        match env.ebsWait volume_id with
        | .error e =>
            (⟨volume_id, "ebs", .failed, some e⟩,
             [.describeVolumes volume_id, .detachVolume volume_id,
              .waitVolumeAvailable volume_id])
        | .ok _ =>
          match env.ebsDelete volume_id with
          | .ok _ =>
              (⟨volume_id, "ebs", .deleted, none⟩,
               [.describeVolumes volume_id, .detachVolume volume_id,
                .waitVolumeAvailable volume_id, .deleteVolume volume_id])
          | .error e =>
              (⟨volume_id, "ebs", .failed, some e⟩,
               [.describeVolumes volume_id, .detachVolume volume_id,
                .waitVolumeAvailable volume_id, .deleteVolume volume_id])

/-- The `DeleteMarkers` half of one `delete_s3` loop iteration: one batched
`delete_objects` call when the page has delete markers. -/
def marker_batch (env : Env) (bucket : String) (p : S3Page) :
    Option String × List Call :=
  if p.deleteMarkers.isEmpty then (none, [])
  else
    match env.s3DeleteObjects bucket p.deleteMarkers with
    | .ok _ => (none, [.deleteObjects bucket p.deleteMarkers])
    | .error e => (some e, [.deleteObjects bucket p.deleteMarkers])

/-- The body of one iteration of the `delete_s3` paginator loop: the
`Versions` batch (if non-empty) then the `DeleteMarkers` batch (if
non-empty); returns the raised exception if any, and the calls issued. -/
def delete_page_objects (env : Env) (bucket : String) (p : S3Page) :
    Option String × List Call :=
  if p.versions.isEmpty then marker_batch env bucket p
  else
    match env.s3DeleteObjects bucket p.versions with
    | .error e => (some e, [.deleteObjects bucket p.versions])
    | .ok _ =>
      ((marker_batch env bucket p).1,
       .deleteObjects bucket p.versions :: (marker_batch env bucket p).2)

/-- The full `delete_s3` paginator loop over all pages; stops at the first
raised exception. -/
def empty_bucket (env : Env) (bucket : String) : List S3Page → Option String × List Call
  | [] => (none, [])
  | p :: rest =>
    match delete_page_objects env bucket p with
    | (some e, cs) => (some e, cs)
    | (none, cs) =>
      let tail := empty_bucket env bucket rest
      (tail.1, cs ++ tail.2)

/-- `AWSDestroyer.delete_s3`: drains every listed object version and delete
marker (batched per page) and then issues `delete_bucket`; any exception
becomes a failed result. -/
def delete_s3 (env : Env) (bucket_name : String) : DeletionResult × List Call :=
  match env.s3ListPages bucket_name with
  | .error e => (⟨bucket_name, "s3", .failed, some e⟩, [])
  | .ok pages =>
    match empty_bucket env bucket_name pages with
    | (some e, cs) => (⟨bucket_name, "s3", .failed, some e⟩, cs)
    | (none, cs) =>
      match env.s3DeleteBucket bucket_name with
      | .ok _ => (⟨bucket_name, "s3", .deleted, none⟩, cs ++ [.deleteBucket bucket_name])
      | .error e => (⟨bucket_name, "s3", .failed, some e⟩, cs ++ [.deleteBucket bucket_name])

/-- The `deletion_methods` dict of `AWSDestroyer.delete_resources`, as an
association list from resource-type string to handler. -/
def deletion_methods (env : Env) : List (String × (String → DeletionResult × List Call)) :=
  [("lambda", delete_lambda env),
   ("api_gateway", delete_api_gateway env),
   ("sqs", delete_sqs env),
   ("ec2", delete_ec2 env),
   ("cloudwatch_logs", delete_cloudwatch_logs env),
   ("ebs", delete_ebs env),
   ("s3", delete_s3 env)]

/-- The `for resource_id in resource_ids` loop of
`AWSDestroyer.delete_resources`: one handler call per id, in order. -/
def run_batch (f : String → DeletionResult × List Call) :
    List String → List DeletionResult × List Call
  | [] => ([], [])
  | rid :: rest =>
    let step := f rid
    let tail := run_batch f rest
    (step.1 :: tail.1, step.2 ++ tail.2)

/-- `AWSDestroyer.delete_resources`: looks the resource type up in
`deletion_methods` and runs the handler once per id; an unmapped type skips
the loop entirely, returning the empty result list. -/
def delete_resources (env : Env) (resource_type : String) (resource_ids : List String) :
    List DeletionResult × List Call :=
  match (deletion_methods env).lookup resource_type with
  | some f => run_batch f resource_ids
  | none => ([], [])

/-- The `for resource_type, resource_ids in selections.items()` loop of the
`/api/delete` handler in `wipeIt/app.py`: each non-empty request is passed to
`AWSDestroyer.delete_resources` and the results are concatenated in request
order. -/
def app_delete_resources (env : Env) :
    List (String × List String) → List DeletionResult × List Call
  | [] => ([], [])
  | (resource_type, resource_ids) :: rest =>
    let step :=
      if resource_ids.isEmpty then ([], [])
      else delete_resources env resource_type resource_ids
    let tail := app_delete_resources env rest
    (step.1 ++ tail.1, step.2 ++ tail.2)

/-! ### Python string primitives

The source parses identifiers with `str.split`, `in`, `str.strip` and
`str.lower`.  These are embedded as structurally recursive functions over the
character list so that they evaluate inside the kernel. -/

/-- Splitting a character list on a separator, with Python `str.split(sep)`
semantics: `n` separators yield `n + 1` (possibly empty) pieces. -/
def split_aux (sep : Char) : List Char → List (List Char)
  | [] => [[]]
  | c :: rest =>
    let r := split_aux sep rest
    if c = sep then [] :: r
    else (c :: r.headD []) :: r.tail

/-- Python `s.split(sep)` for a one-character separator. -/
def py_split (s : String) (sep : Char) : List String :=
  (split_aux sep s.toList).map String.mk

/-- Python `sep in s` for a one-character needle. -/
def py_contains (s : String) (c : Char) : Bool :=
  s.toList.contains c

/-- A Python whitespace character (the set removed by `str.strip()`). -/
def is_py_space (c : Char) : Bool :=
  c = ' ' ∨ c = '\t' ∨ c = '\n' ∨ c = '\r' ∨ c = '\x0b' ∨ c = '\x0c'

/-- Python `s.strip()`. -/
def py_strip (s : String) : String :=
  String.mk (((s.toList.dropWhile is_py_space).reverse.dropWhile is_py_space).reverse)

/-- Python `s.lower()` (over the ASCII range the source compares against). -/
def py_lower (s : String) : String :=
  String.mk (s.toList.map Char.toLower)

/-! ## Inventory model (`wipeIt/aws_inventory.py`)

Discovered descriptors are Python dicts with string keys and string values;
they are embedded as association lists so that all resource kinds share one
descriptor type, as they share the `Dict` type in the source. -/

/-- A descriptor dict built by a `discover_*` method. -/
abbrev Desc := List (String × String)

/-- One entry of a `list_functions` page. -/
structure LambdaFunc where
  functionName : String
  functionArn : String
  runtime : Option String
deriving DecidableEq, Repr

/-- One entry of a `get_rest_apis` page. -/
structure RestApi where
  name : String
  id : String
  createdDate : Option String
deriving DecidableEq, Repr

/-- One instance record of a `describe_instances` reservation. -/
structure EC2Instance where
  instanceId : String
  state : String
  tags : Option (List (String × String))
  instanceType : String
deriving DecidableEq, Repr

/-- One entry of a `describe_log_groups` page. -/
structure LogGroup where
  logGroupName : String
  arn : String
deriving DecidableEq, Repr

/-- One volume record of a `describe_volumes` page. -/
structure EbsVolume where
  volumeId : String
  size : Nat
  state : String
  tags : Option (List (String × String))
  attachments : List String
deriving DecidableEq, Repr

/-- One entry of a `list_buckets` response. -/
structure Bucket where
  name : String
  creationDate : String
deriving DecidableEq, Repr

/-- The provider environment seen by `AWSInventory`: the response of each
listing call, paginated where the source paginates. -/
structure IEnv where
  lambdaPages : Except String (List (List LambdaFunc))
  apiGatewayPages : Except String (List (List RestApi))
  sqsListQueues : Except String (Option (List String))
  ec2Pages : Except String (List (List (List EC2Instance)))
  logsPages : Except String (List (List LogGroup))
  ebsPages : Except String (List (List EbsVolume))
  s3ListBuckets : Except String (List Bucket)
  s3GetLocation : String → Except String (Option String)

/-- `AWSInventory.discover_lambda`: one dict per listed function; a provider
error yields an empty list. -/
def discover_lambda (env : IEnv) : List Desc :=
  match env.lambdaPages with
  | .error _ => []
  | .ok pages =>
    pages.flatMap fun page =>
      page.map fun f =>
        [("name", f.functionName), ("arn", f.functionArn),
         ("runtime", f.runtime.getD "N/A"), ("id", f.functionName)]

/-- `AWSInventory.discover_api_gateway`. -/
def discover_api_gateway (env : IEnv) : List Desc :=
  match env.apiGatewayPages with
  | .error _ => []
  | .ok pages =>
    pages.flatMap fun page =>
      page.map fun api =>
        [("name", api.name), ("id", api.id), ("created", api.createdDate.getD "N/A")]

/-- `AWSInventory.discover_sqs`: `response.get('QueueUrls', [])`, and the
queue name is the last `/`-segment of the url. -/
def discover_sqs (env : IEnv) : List Desc :=
  match env.sqsListQueues with
  | .error _ => []
  | .ok queueUrls =>
    (queueUrls.getD []).map fun url =>
      [("name", (py_split url '/').getLastD ""), ("url", url), ("id", url)]

/-- The `Name` tag scan shared by `discover_ec2` and `discover_ebs`: the
value of the first tag with key `Name`, or `'N/A'`. -/
def name_tag (tags : Option (List (String × String))) : String :=
  match tags with
  | none => "N/A"
  | some ts =>
    match ts.find? (fun t => t.1 = "Name") with
    | some t => t.2
    | none => "N/A"

/-- The descriptor dict `discover_ec2` builds for one instance. -/
def ec2_desc (inst : EC2Instance) : Desc :=
  [("name", name_tag inst.tags ++ " (" ++ inst.instanceId ++ ")"),
   ("id", inst.instanceId), ("state", inst.state), ("type", inst.instanceType)]

/-- `AWSInventory.discover_ec2`: walks pages, reservations and instances,
skipping every instance whose state is `'terminated'`. -/
def discover_ec2 (env : IEnv) : List Desc :=
  match env.ec2Pages with
  | .error _ => []
  | .ok pages =>
    pages.flatMap fun page =>
      page.flatMap fun reservation =>
        reservation.filterMap fun inst =>
          if inst.state = "terminated" then none
          else some (ec2_desc inst)

/-- `AWSInventory.discover_cloudwatch_logs`. -/
def discover_cloudwatch_logs (env : IEnv) : List Desc :=
  match env.logsPages with
  | .error _ => []
  | .ok pages =>
    pages.flatMap fun page =>
      page.map fun lg =>
        [("name", lg.logGroupName), ("id", lg.logGroupName), ("arn", lg.arn)]

/-- `AWSInventory.discover_ebs`. -/
def discover_ebs (env : IEnv) : List Desc :=
  match env.ebsPages with
  | .error _ => []
  | .ok pages =>
    pages.flatMap fun page =>
      page.map fun v =>
        [("name", name_tag v.tags ++ " (" ++ v.volumeId ++ ")"),
         ("id", v.volumeId), ("size", toString v.size ++ " GB"),
         ("state", v.state),
         ("attached_to", if v.attachments.isEmpty then "Unattached" else v.attachments.headD "")]

/-- The region normalisation of `discover_s3`: a `None` `LocationConstraint`
stands for `us-east-1`. -/
def normalize_region (loc : Option String) : String :=
  match loc with
  | none => "us-east-1"
  | some r => r

/-- The descriptor dict `discover_s3` builds for one bucket. -/
def bucket_desc (b : Bucket) : Desc :=
  [("name", b.name), ("id", b.name), ("created", b.creationDate)]

/-- `AWSInventory.discover_s3`: lists all buckets globally, resolves each
bucket's region via `get_bucket_location` (skipping the bucket with a warning
if that call raises), and keeps only buckets whose normalised region equals
the scope's region. -/
def discover_s3 (env : IEnv) (region : String) : List Desc :=
  match env.s3ListBuckets with
  | .error _ => []
  | .ok buckets =>
    buckets.filterMap fun b =>
      match env.s3GetLocation b.name with
      | .error _ => none
      | .ok loc =>
        if normalize_region loc = region then some (bucket_desc b)
        else none

/-- `AWSInventory.discover_all`: the inventory dict, one key per registered
resource kind, built by calling each kind's discovery in turn. -/
def discover_all (env : IEnv) (region : String) : List (String × List Desc) :=
  [("lambda", discover_lambda env),
   ("api_gateway", discover_api_gateway env),
   ("sqs", discover_sqs env),
   ("ec2", discover_ec2 env),
   ("cloudwatch_logs", discover_cloudwatch_logs env),
   ("ebs", discover_ebs env),
   ("s3", discover_s3 env region)]

/-! ## ARNssassin model (`ARNssassin.py`)

`delete_resource` wraps its body in `try ... except ClientError`, so a
provider `ClientError` is converted to a message while any other exception —
in particular the `IndexError` raised when the arn has too few `:`-separated
parts — propagates past the function.  The propagating case is modelled by
`Except.error`. -/

/-- An exception that escapes `delete_resource` (not a `ClientError`). -/
inductive PyException where
  | indexError
deriving DecidableEq, Repr

/-- The provider environment seen by `ARNssassin.delete_resource`; an
`Except.error` payload is a `ClientError` message (the only provider
exception the function catches). -/
structure ArnEnv where
  ec2Terminate : String → Except String Unit
  rdsDelete : String → Except String Unit
  sqsDelete : String → Except String Unit
  secretsDelete : String → Except String Unit
  s3DeleteBucket : String → Except String Unit

/-- `service = arn.split(':')[2]`. -/
def arn_service (arn : String) : Option String :=
  (py_split arn ':').get? 2

/-- `resource_type = arn.split(':')[5].split('/')[0] if '/' in arn else ''`. -/
def arn_resource_type (arn : String) : Option String :=
  if py_contains arn '/' then
    ((py_split arn ':').get? 5).map (fun s => (py_split s '/').headD "")
  else some ""

/-- `resource_id = arn.split('/')[-1] if '/' in arn else arn.split(':')[-1]`. -/
def arn_resource_id (arn : String) : String :=
  if py_contains arn '/' then (py_split arn '/').getLastD ""
  else (py_split arn ':').getLastD ""

/-- Turns a provider call's outcome into `delete_resource`'s returned message
(success message, or the `ClientError` caught and rendered). -/
def arn_step (arn : String) (okMsg : String) (c : Call) (r : Except String Unit) :
    String × List Call :=
  match r with
  | .ok _ => (okMsg, [c])
  | .error e => ("Error deleting " ++ arn ++ ": " ++ e, [c])

/-- `ARNssassin.delete_resource`: parses service / resource type / resource
id out of the arn (an out-of-range index raises `IndexError`, which the
`except ClientError` clause does not catch), dispatches on the service, and
returns a message; unknown services yield the `Unsupported` message without
any provider call. -/
def delete_resource (env : ArnEnv) (arn : String) (_region : String) :
    Except PyException (String × List Call) :=
  match arn_service arn with
  | none => .error .indexError
  | some service =>
    match arn_resource_type arn with
    | none => .error .indexError
    | some resource_type =>
      let resource_id := arn_resource_id arn
      if service = "ec2" ∧ resource_type = "instance" then
        .ok (arn_step arn ("Terminated EC2 instance: " ++ resource_id)
              (.terminateInstances resource_id) (env.ec2Terminate resource_id))
      else if service = "rds" ∧ resource_type = "db" then
        .ok (arn_step arn ("Deleted RDS instance: " ++ resource_id)
              (.deleteDbInstance resource_id) (env.rdsDelete resource_id))
      else if service = "sqs" then
        .ok (arn_step arn ("Deleted SQS queue: " ++ resource_id)
              (.deleteQueue resource_id) (env.sqsDelete resource_id))
      else if service = "secretsmanager" then
        .ok (arn_step arn ("Deleted Secrets Manager secret: " ++ resource_id)
              (.deleteSecret resource_id) (env.secretsDelete resource_id))
      else if service = "s3" then
        .ok (arn_step arn ("Deleted S3 bucket: " ++ resource_id)
              (.deleteBucket resource_id) (env.s3DeleteBucket resource_id))
      else
        .ok ("Unsupported resource type for deletion: " ++ service ++ " (" ++ arn ++ ")", [])

/-- An observable event of a run: the itemised confirmation prompt, the
user's answer, a provider call, or a printed line. -/
inductive Event where
  | promptShown (arns : List String)
  | confirmed
  | cancelled
  | providerCall (c : Call)
  | printed (msg : String)
deriving DecidableEq, Repr

/-- The `for arn in arns` loop of `ARNssassin.main`: each arn's calls and
printed message in order; an exception escaping `delete_resource` is caught
by the surrounding `try`, which prints an error and exits, aborting the rest
of the batch (the `Bool` records the abort). -/
def arn_loop (env : ArnEnv) (region : String) : List String → List Event × Bool
  | [] => ([], false)
  | arn :: rest =>
    match delete_resource env arn region with
    | .error _ => ([.printed "Error during deletion process"], true)
    | .ok (msg, calls) =>
      let tail := arn_loop env region rest
      (calls.map Event.providerCall ++ Event.printed msg :: tail.1, tail.2)

/-- `ARNssassin.main` after the arn file has been read: exits on an empty
list, otherwise prints every arn, asks for confirmation, and only when the
stripped, lowercased answer is exactly `y` runs the deletion loop. -/
def arnssassin_main (env : ArnEnv) (arns : List String) (confirmation region : String) :
    List Event :=
  if arns.isEmpty then [.printed "No ARNs found in the JSON file. Exiting."]
  else
    Event.promptShown arns ::
      if py_lower (py_strip confirmation) ≠ "y" then [.cancelled, .printed "Deletion cancelled."]
      else Event.confirmed :: (arn_loop env region arns).1

/-- An entry point of the repository that can issue delete calls: the
ARNssassin CLI, or the wipeIt `/api/delete` HTTP handler. -/
inductive Entry where
  | cli (arns : List String) (confirmation region : String)
  | web (selections : List (String × List String))

/-- Provider environments for both entry points. -/
structure SysEnv where
  arnEnv : ArnEnv
  destroyerEnv : Env

/-- The event trace of one entry-point run.  The `/api/delete` handler body
contains no confirmation step: its trace is exactly the provider calls made
for the posted selections. -/
def run_entry (sys : SysEnv) : Entry → List Event
  | .cli arns confirmation region => arnssassin_main sys.arnEnv arns confirmation region
  | .web selections => ((app_delete_resources sys.destroyerEnv selections).2).map Event.providerCall

/-- The provider calls that destroy or alter a resource terminally. -/
def is_delete_call : Call → Bool
  | .deleteFunction _ => true
  | .deleteRestApi _ => true
  | .deleteQueue _ => true
  | .terminateInstances _ => true
  | .deleteLogGroup _ => true
  | .deleteVolume _ => true
  | .deleteObjects _ _ => true
  | .deleteBucket _ => true
  | .deleteDbInstance _ => true
  | .deleteSecret _ => true
  | _ => false

/-- `deletes_gated t seen` holds when every delete call in `t` is preceded by
an affirmative confirmation (`seen` records whether one was already seen). -/
def deletes_gated : List Event → Bool → Bool
  | [], _ => true
  | .confirmed :: rest, _ => deletes_gated rest true
  | .providerCall c :: rest, seen => (!is_delete_call c || seen) && deletes_gated rest seen
  | _ :: rest, seen => deletes_gated rest seen

/-- The provider calls occurring in an event trace. -/
def provider_calls (t : List Event) : List Call :=
  t.filterMap fun e =>
    match e with
    | .providerCall c => some c
    | _ => none

/-- The calls issued by one `delete_resource` invocation (empty when an
exception escapes). -/
def arn_calls (env : ArnEnv) (arn region : String) : List Call :=
  match delete_resource env arn region with
  | .ok p => p.2
  | .error _ => []

/-! ## Concrete environments for witnesses and counterexamples -/

/-- A destroyer environment in which every provider call succeeds, volumes
are unattached and buckets are empty. -/
def envAllOk : Env where
  lambdaDelete := fun _ => .ok ()
  apiGatewayDelete := fun _ => .ok ()
  sqsDelete := fun _ => .ok ()
  ec2Modify := fun _ => .ok ()
  ec2Terminate := fun _ => .ok ()
  logsDelete := fun _ => .ok ()
  ebsDescribe := fun _ => .ok []
  ebsDetach := fun _ => .ok ()
  ebsWait := fun _ => .ok ()
  ebsDelete := fun _ => .ok ()
  s3ListPages := fun _ => .ok []
  s3DeleteObjects := fun _ _ => .ok ()
  s3DeleteBucket := fun _ => .ok ()

/-- An ARNssassin environment in which every provider call succeeds. -/
def arnEnvAllOk : ArnEnv where
  ec2Terminate := fun _ => .ok ()
  rdsDelete := fun _ => .ok ()
  sqsDelete := fun _ => .ok ()
  secretsDelete := fun _ => .ok ()
  s3DeleteBucket := fun _ => .ok ()

/-- Both all-succeeding environments together. -/
def sysAllOk : SysEnv where
  arnEnv := arnEnvAllOk
  destroyerEnv := envAllOk

/-- A destroyer environment whose volume `vol-1` is attached and whose
`detach_volume` call raises. -/
def envDetachFails : Env where
  lambdaDelete := fun _ => .ok ()
  apiGatewayDelete := fun _ => .ok ()
  sqsDelete := fun _ => .ok ()
  ec2Modify := fun _ => .ok ()
  ec2Terminate := fun _ => .ok ()
  logsDelete := fun _ => .ok ()
  ebsDescribe := fun _ => .ok ["i-1"]
  ebsDetach := fun _ => .error "DetachFailed"
  ebsWait := fun _ => .ok ()
  ebsDelete := fun _ => .ok ()
  s3ListPages := fun _ => .ok []
  s3DeleteObjects := fun _ _ => .ok ()
  s3DeleteBucket := fun _ => .ok ()

/-- A destroyer environment whose `modify_instance_attribute` call raises
while everything else succeeds. -/
def envModifyFails : Env where
  lambdaDelete := fun _ => .ok ()
  apiGatewayDelete := fun _ => .ok ()
  sqsDelete := fun _ => .ok ()
  ec2Modify := fun _ => .error "UnauthorizedOperation"
  ec2Terminate := fun _ => .ok ()
  logsDelete := fun _ => .ok ()
  ebsDescribe := fun _ => .ok []
  ebsDetach := fun _ => .ok ()
  ebsWait := fun _ => .ok ()
  ebsDelete := fun _ => .ok ()
  s3ListPages := fun _ => .ok []
  s3DeleteObjects := fun _ _ => .ok ()
  s3DeleteBucket := fun _ => .ok ()

/-! ## Theorems -/

/--
**C1.** The claim says a deletion batch whose kind cannot be mapped to a
handler yields one `Failed` result per id with an `UnsupportedKind` cause and
continues.  `AWSDestroyer.delete_resources` instead guards the loop with
`if resource_type in deletion_methods` and returns the empty list when the
kind is unmapped (`rds` is not in its method dict): the whole batch is
silently skipped, with zero results.  The ARNssassin per-arn path shows the
intended behaviour: an unsupported service yields one explicit `Unsupported`
message and the loop continues with the next arn.
-/
theorem c1_unsupported_kind_silently_skipped :
    delete_resources envAllOk "rds" ["db-1", "db-2"] = ([], []) ∧
    (arn_loop arnEnvAllOk "us-east-1"
        ["arn:aws:dynamodb:us-east-1:123456789012:table/t",
         "arn:aws:sqs:us-east-1:123456789012:myqueue"]).1 =
      [Event.printed
         "Unsupported resource type for deletion: dynamodb (arn:aws:dynamodb:us-east-1:123456789012:table/t)",
       Event.providerCall (Call.deleteQueue "myqueue"),
       Event.printed "Deleted SQS queue: myqueue"] :=
  ⟨rfl, rfl⟩

/--
**C3.** For a block volume the provider reports as attached, `delete_ebs`
issues the detach call and the `volume_available` wait before `delete_volume`;
a failure of the detach (or of the wait) produces a `failed` result and no
`delete_volume` call is ever issued; when both succeed the call sequence is
exactly describe, detach, wait, delete.
-/
theorem c3_ebs_detach_before_delete (env : Env) (vid : String) (atts : List String)
    (hdesc : env.ebsDescribe vid = .ok atts) (hatt : atts ≠ []) :
    (∀ e, env.ebsDetach vid = .error e →
      (delete_ebs env vid).1.outcome = .failed ∧
      Call.deleteVolume vid ∉ (delete_ebs env vid).2) ∧
    (∀ e, env.ebsDetach vid = .ok () → env.ebsWait vid = .error e →
      (delete_ebs env vid).1.outcome = .failed ∧
      Call.deleteVolume vid ∉ (delete_ebs env vid).2) ∧
    (env.ebsDetach vid = .ok () → env.ebsWait vid = .ok () →
      (delete_ebs env vid).2 =
        [.describeVolumes vid, .detachVolume vid, .waitVolumeAvailable vid,
         .deleteVolume vid]) := by
  have hne : atts.isEmpty = false := by
    cases atts with
    | nil => exact absurd rfl hatt
    | cons a l => rfl
  refine ⟨?_, ?_, ?_⟩
  · intro e hdet
    simp only [delete_ebs, hdesc, hne, Bool.false_eq_true, if_false, hdet]
    simp
  · intro e hdet hwait
    simp only [delete_ebs, hdesc, hne, Bool.false_eq_true, if_false, hdet, hwait]
    simp
  · intro hdet hwait
    simp only [delete_ebs, hdesc, hne, Bool.false_eq_true, if_false, hdet, hwait]
    cases h : env.ebsDelete vid <;> simp

/-- Witness for **C3**: in `envDetachFails` the volume `vol-1` is attached and
the detach call fails, so the result is `failed` and no `delete_volume` call
occurs. -/
theorem c3_ebs_detach_before_delete_witness :
    envDetachFails.ebsDescribe "vol-1" = .ok ["i-1"] ∧
    ((delete_ebs envDetachFails "vol-1").1.outcome = .failed ∧
      Call.deleteVolume "vol-1" ∉ (delete_ebs envDetachFails "vol-1").2) :=
  ⟨rfl,
   (c3_ebs_detach_before_delete envDetachFails "vol-1" ["i-1"] rfl (by decide)).1
     "DetachFailed" rfl⟩

/--
**C5 counterexample.** The claim quantifies over every compute-instance
delete call, but the `ec2`/`instance` branch of `ARNssassin.delete_resource`
issues `terminate_instances` directly: its call list contains no
`modify_instance_attribute` (deletion-protection clearing) call at all.
-/
theorem c5_counterexample_arn_path_never_clears_protection :
    delete_resource arnEnvAllOk "arn:aws:ec2:us-east-1:123456789012:instance/i-0abc"
        "us-east-1" =
      .ok ("Terminated EC2 instance: i-0abc", [Call.terminateInstances "i-0abc"]) ∧
    Call.modifyInstanceAttribute "i-0abc" ∉
      arn_calls arnEnvAllOk "arn:aws:ec2:us-east-1:123456789012:instance/i-0abc" "us-east-1" :=
  ⟨rfl, by decide⟩

/--
**C5 (amended).** In the wipeIt engine, `AWSDestroyer.delete_ec2` always
issues the protection-clearing `modify_instance_attribute` call first and then
`terminate_instances`; the result is determined by the termination call alone
(a protection-clearing failure is non-fatal: the result does not depend on the
`ec2Modify` outcome at all).  The ARNssassin per-arn EC2 path terminates
directly with no protection-clearing step.
-/
theorem c5_protection_clearing_best_effort (env : Env) (iid : String) :
    (delete_ec2 env iid).2 =
      [Call.modifyInstanceAttribute iid, Call.terminateInstances iid] ∧
    (env.ec2Terminate iid = .ok () →
      (delete_ec2 env iid).1 = ⟨iid, "ec2", .deleted, none⟩) ∧
    (∀ e, env.ec2Terminate iid = .error e →
      (delete_ec2 env iid).1 = ⟨iid, "ec2", .failed, some e⟩) ∧
    (∀ env' : Env, env'.ec2Terminate iid = env.ec2Terminate iid →
      delete_ec2 env' iid = delete_ec2 env iid) := by
  refine ⟨?_, ?_, ?_, ?_⟩
  · cases h : env.ec2Terminate iid <;> simp [delete_ec2, h]
  · intro h; simp [delete_ec2, h]
  · intro e h; simp [delete_ec2, h]
  · intro env' h; simp only [delete_ec2, h]

/-- Witness for **C5 (amended)**: in `envModifyFails` the protection-clearing
call fails, yet the instance result is `deleted` because the termination call
succeeds. -/
theorem c5_protection_clearing_best_effort_witness :
    envModifyFails.ec2Modify "i-7" = .error "UnauthorizedOperation" ∧
    (delete_ec2 envModifyFails "i-7").1 = ⟨"i-7", "ec2", .deleted, none⟩ :=
  ⟨rfl, (c5_protection_clearing_best_effort envModifyFails "i-7").2.1 rfl⟩

/-- A running instance used in witnesses. -/
def instRunning : EC2Instance := ⟨"i-1", "running", some [("Name", "web")], "t2.micro"⟩

/-- A terminated instance used in witnesses. -/
def instTerminated : EC2Instance := ⟨"i-2", "terminated", none, "t3.large"⟩

/-- A bucket with no recorded region (default-region convention). -/
def bucketB1 : Bucket := ⟨"b1", "2024-01-01T00:00:00"⟩

/-- A bucket created in `eu-west-1`. -/
def bucketB2 : Bucket := ⟨"b2", "2024-01-02T00:00:00"⟩

/-- A concrete inventory environment: the Lambda listing raises, one EC2 page
holds one running and one terminated instance, and of two buckets one resolves
to the default region and one to `eu-west-1`. -/
def invEnvA : IEnv where
  lambdaPages := .error "AccessDenied"
  apiGatewayPages := .ok []
  sqsListQueues := .ok none
  ec2Pages := .ok [[[instRunning, instTerminated]]]
  logsPages := .ok []
  ebsPages := .ok []
  s3ListBuckets := .ok [bucketB1, bucketB2]
  s3GetLocation := fun n => if n = "b1" then .ok none else .ok (some "eu-west-1")

/--
**C10.** `discover_ec2` never emits a descriptor whose `state` value is
`terminated`, and (when the listing succeeds) every listed instance in any
other state has its descriptor included in the result.
-/
theorem c10_terminated_instances_excluded (env : IEnv) :
    (∀ d ∈ discover_ec2 env, d.lookup "state" ≠ some "terminated") ∧
    (∀ pages, env.ec2Pages = .ok pages →
      ∀ page ∈ pages, ∀ reservation ∈ page, ∀ inst ∈ reservation,
        inst.state ≠ "terminated" → ec2_desc inst ∈ discover_ec2 env) := by
  constructor
  · intro d hd
    unfold discover_ec2 at hd
    cases hpages : env.ec2Pages with
    | error e => rw [hpages] at hd; simp at hd
    | ok pages =>
      rw [hpages] at hd
      simp only [List.mem_flatMap, List.mem_filterMap] at hd
      obtain ⟨page, _, reservation, _, inst, _, hmk⟩ := hd
      by_cases hterm : inst.state = "terminated"
      · simp [hterm] at hmk
      · simp only [hterm, if_false] at hmk
        cases hmk
        simp [ec2_desc, List.lookup, hterm]
  · intro pages hpages page hpage reservation hres inst hinst hterm
    unfold discover_ec2
    rw [hpages]
    simp only [List.mem_flatMap, List.mem_filterMap]
    exact ⟨page, hpage, reservation, hres, inst, hinst, by simp [hterm]⟩

/-- Witness for **C10**: in `invEnvA` the running instance `i-1` appears in
the EC2 inventory while no descriptor carries state `terminated` (in
particular `i-2` is absent). -/
theorem c10_terminated_instances_excluded_witness :
    ec2_desc instRunning ∈ discover_ec2 invEnvA ∧
    (discover_ec2 invEnvA).length = 1 :=
  ⟨((c10_terminated_instances_excluded invEnvA).2
      [[[instRunning, instTerminated]]] rfl
      [[instRunning, instTerminated]] (by decide)
      [instRunning, instTerminated] (by decide)
      instRunning (by decide) (by decide)),
   by decide⟩

/--
**C7.** A bucket listed by the global `list_buckets` call is included in the
inventory exactly when its resolved creation region — with a `None`
`LocationConstraint` first normalised to `us-east-1` — equals the scope's
region; a bucket whose `get_bucket_location` call raises is excluded.
-/
theorem c7_bucket_region_filter (env : IEnv) (region : String) (buckets : List Bucket)
    (b : Bucket) (hlist : env.s3ListBuckets = .ok buckets) (hb : b ∈ buckets) :
    bucket_desc b ∈ discover_s3 env region ↔
      ∃ loc, env.s3GetLocation b.name = .ok loc ∧ normalize_region loc = region := by
  unfold discover_s3
  rw [hlist]
  simp only [List.mem_filterMap]
  constructor
  · rintro ⟨b', _, hstep⟩
    cases hloc : env.s3GetLocation b'.name with
    | error e => rw [hloc] at hstep; simp at hstep
    | ok loc =>
      rw [hloc] at hstep
      by_cases hreg : normalize_region loc = region
      · simp only [hreg, if_true, Option.some.injEq] at hstep
        have hname : b'.name = b.name := by
          simp only [bucket_desc, List.cons.injEq, Prod.mk.injEq] at hstep
          exact hstep.1.2
        exact ⟨loc, hname ▸ hloc, hreg⟩
      · simp [hreg] at hstep
  · rintro ⟨loc, hloc, hreg⟩
    exact ⟨b, hb, by simp [hloc, hreg]⟩

/-- Witness for **C7**: in `invEnvA` with scope region `us-east-1`, bucket
`b1` (no recorded region, normalised to `us-east-1`) is included, and `b2`
(region `eu-west-1`) is not. -/
theorem c7_bucket_region_filter_witness :
    bucket_desc bucketB1 ∈ discover_s3 invEnvA "us-east-1" ∧
    bucket_desc bucketB2 ∉ discover_s3 invEnvA "us-east-1" :=
  ⟨(c7_bucket_region_filter invEnvA "us-east-1" [bucketB1, bucketB2] bucketB1
      rfl (by decide)).2 ⟨none, rfl, rfl⟩,
   fun hmem => by
     have h := (c7_bucket_region_filter invEnvA "us-east-1" [bucketB1, bucketB2]
       bucketB2 rfl (by decide)).1 hmem
     obtain ⟨loc, hloc, hreg⟩ := h
     have hloc2 : loc = some "eu-west-1" := by
       have h2 := hloc
       simp [invEnvA, bucketB2] at h2
       exact h2.symm
     rw [hloc2] at hreg
     exact absurd hreg (by decide)⟩

/--
**C6.** Every discovery run returns an inventory whose keys are exactly the
seven registered resource kinds, in registration order; a kind whose listing
call raises maps to the empty list rather than being absent; and each kind's
entry is determined solely by that kind's own provider responses, so a
failure in one kind's discovery cannot change what any other kind discovers.
-/
theorem c6_inventory_total (env env' : IEnv) (region : String) :
    ((discover_all env region).map Prod.fst =
      ["lambda", "api_gateway", "sqs", "ec2", "cloudwatch_logs", "ebs", "s3"]) ∧
    ((∀ e, env.lambdaPages = .error e →
        (discover_all env region).lookup "lambda" = some []) ∧
     (∀ e, env.apiGatewayPages = .error e →
        (discover_all env region).lookup "api_gateway" = some []) ∧
     (∀ e, env.sqsListQueues = .error e →
        (discover_all env region).lookup "sqs" = some []) ∧
     (∀ e, env.ec2Pages = .error e →
        (discover_all env region).lookup "ec2" = some []) ∧
     (∀ e, env.logsPages = .error e →
        (discover_all env region).lookup "cloudwatch_logs" = some []) ∧
     (∀ e, env.ebsPages = .error e →
        (discover_all env region).lookup "ebs" = some []) ∧
     (∀ e, env.s3ListBuckets = .error e →
        (discover_all env region).lookup "s3" = some [])) ∧
    ((env.lambdaPages = env'.lambdaPages →
        (discover_all env region).lookup "lambda" =
          (discover_all env' region).lookup "lambda") ∧
     (env.apiGatewayPages = env'.apiGatewayPages →
        (discover_all env region).lookup "api_gateway" =
          (discover_all env' region).lookup "api_gateway") ∧
     (env.sqsListQueues = env'.sqsListQueues →
        (discover_all env region).lookup "sqs" =
          (discover_all env' region).lookup "sqs") ∧
     (env.ec2Pages = env'.ec2Pages →
        (discover_all env region).lookup "ec2" =
          (discover_all env' region).lookup "ec2") ∧
     (env.logsPages = env'.logsPages →
        (discover_all env region).lookup "cloudwatch_logs" =
          (discover_all env' region).lookup "cloudwatch_logs") ∧
     (env.ebsPages = env'.ebsPages →
        (discover_all env region).lookup "ebs" =
          (discover_all env' region).lookup "ebs") ∧
     (env.s3ListBuckets = env'.s3ListBuckets →
        (env.s3GetLocation = env'.s3GetLocation) →
        (discover_all env region).lookup "s3" =
          (discover_all env' region).lookup "s3")) := by
  refine ⟨rfl, ⟨?_, ?_, ?_, ?_, ?_, ?_, ?_⟩, ⟨?_, ?_, ?_, ?_, ?_, ?_, ?_⟩⟩
  · intro e h; simp [discover_all, List.lookup, discover_lambda, h]
  · intro e h; simp [discover_all, List.lookup, discover_api_gateway, h]
  · intro e h; simp [discover_all, List.lookup, discover_sqs, h]
  · intro e h; simp [discover_all, List.lookup, discover_ec2, h]
  · intro e h; simp [discover_all, List.lookup, discover_cloudwatch_logs, h]
  · intro e h; simp [discover_all, List.lookup, discover_ebs, h]
  · intro e h; simp [discover_all, List.lookup, discover_s3, h]
  · intro h; simp [discover_all, List.lookup, discover_lambda, h]
  · intro h; simp [discover_all, List.lookup, discover_api_gateway, h]
  · intro h; simp [discover_all, List.lookup, discover_sqs, h]
  · intro h; simp [discover_all, List.lookup, discover_ec2, h]
  · intro h; simp [discover_all, List.lookup, discover_cloudwatch_logs, h]
  · intro h; simp [discover_all, List.lookup, discover_ebs, h]
  · intro h h2; simp [discover_all, List.lookup, discover_s3, h, h2]

/-- Witness for **C6**: in `invEnvA` the Lambda listing raises, yet the
inventory still has all seven keys and maps `lambda` to the empty list. -/
theorem c6_inventory_total_witness :
    ((discover_all invEnvA "us-east-1").map Prod.fst =
      ["lambda", "api_gateway", "sqs", "ec2", "cloudwatch_logs", "ebs", "s3"]) ∧
    (discover_all invEnvA "us-east-1").lookup "lambda" = some [] :=
  ⟨(c6_inventory_total invEnvA invEnvA "us-east-1").1,
   (c6_inventory_total invEnvA invEnvA "us-east-1").2.1.1 "AccessDenied" rfl⟩

/-! ## Helper lemmas about the deletion handlers -/

/-- The shape of every result dict a registered handler produces for id
`rid`: its `resource` is the id, its `type` the kind, and it is either
`deleted` with no error or `failed` with an error message. -/
def result_shape (rid ty : String) (r : DeletionResult) : Prop :=
  r.resource = rid ∧ r.type = ty ∧
    ((r.outcome = .deleted ∧ r.error = none) ∨
     ∃ e, r.outcome = .failed ∧ r.error = some e)

theorem delete_lambda_shape (env : Env) (rid : String) :
    result_shape rid "lambda" (delete_lambda env rid).1 := by
  unfold delete_lambda result_shape
  cases env.lambdaDelete rid <;> simp

theorem delete_api_gateway_shape (env : Env) (rid : String) :
    result_shape rid "api_gateway" (delete_api_gateway env rid).1 := by
  unfold delete_api_gateway result_shape
  cases env.apiGatewayDelete rid <;> simp

theorem delete_sqs_shape (env : Env) (rid : String) :
    result_shape rid "sqs" (delete_sqs env rid).1 := by
  unfold delete_sqs result_shape
  cases env.sqsDelete rid <;> simp

theorem delete_ec2_shape (env : Env) (rid : String) :
    result_shape rid "ec2" (delete_ec2 env rid).1 := by
  unfold delete_ec2 result_shape
  cases env.ec2Terminate rid <;> simp

theorem delete_cloudwatch_logs_shape (env : Env) (rid : String) :
    result_shape rid "cloudwatch_logs" (delete_cloudwatch_logs env rid).1 := by
  unfold delete_cloudwatch_logs result_shape
  cases env.logsDelete rid <;> simp

theorem delete_ebs_shape (env : Env) (rid : String) :
    result_shape rid "ebs" (delete_ebs env rid).1 := by
  unfold delete_ebs result_shape
  cases env.ebsDescribe rid with
  | error e => simp
  | ok atts =>
    cases hemp : atts.isEmpty <;> simp only [hemp, Bool.false_eq_true, if_false, if_true]
    · cases env.ebsDetach rid with
      | error e => simp
      | ok u =>
        cases env.ebsWait rid with
        | error e => simp
        | ok u2 => cases env.ebsDelete rid <;> simp
    · cases env.ebsDelete rid <;> simp

theorem delete_s3_shape (env : Env) (rid : String) :
    result_shape rid "s3" (delete_s3 env rid).1 := by
  unfold result_shape
  cases hlist : env.s3ListPages rid with
  | error e => simp [delete_s3, hlist]
  | ok pages =>
    rcases hdrain : empty_bucket env rid pages with ⟨err, cs⟩
    cases err with
    | none => cases hdel : env.s3DeleteBucket rid <;> simp [delete_s3, hlist, hdrain, hdel]
    | some e => simp [delete_s3, hlist, hdrain]

/-- The membership test `resource_type in deletion_methods`. -/
def supported_type (ty : String) : Bool :=
  ty == "lambda" || ty == "api_gateway" || ty == "sqs" || ty == "ec2" ||
  ty == "cloudwatch_logs" || ty == "ebs" || ty == "s3"

theorem supported_lookup (env : Env) (ty : String) (h : supported_type ty = true) :
    ∃ f, (deletion_methods env).lookup ty = some f := by
  simp only [supported_type, Bool.or_eq_true, beq_iff_eq] at h
  rcases h with ((((((h | h) | h) | h) | h) | h) | h) <;>
    (subst h; exact ⟨_, rfl⟩)

theorem deletion_methods_lookup_shape (env : Env) (ty : String)
    (f : String → DeletionResult × List Call)
    (h : (deletion_methods env).lookup ty = some f) (rid : String) :
    result_shape rid ty (f rid).1 := by
  by_cases h1 : ty = "lambda"
  · subst h1; simp [deletion_methods, List.lookup] at h; subst h
    exact delete_lambda_shape env rid
  by_cases h2 : ty = "api_gateway"
  · subst h2; simp [deletion_methods, List.lookup] at h; subst h
    exact delete_api_gateway_shape env rid
  by_cases h3 : ty = "sqs"
  · subst h3; simp [deletion_methods, List.lookup] at h; subst h
    exact delete_sqs_shape env rid
  by_cases h4 : ty = "ec2"
  · subst h4; simp [deletion_methods, List.lookup] at h; subst h
    exact delete_ec2_shape env rid
  by_cases h5 : ty = "cloudwatch_logs"
  · subst h5; simp [deletion_methods, List.lookup] at h; subst h
    exact delete_cloudwatch_logs_shape env rid
  by_cases h6 : ty = "ebs"
  · subst h6; simp [deletion_methods, List.lookup] at h; subst h
    exact delete_ebs_shape env rid
  by_cases h7 : ty = "s3"
  · subst h7; simp [deletion_methods, List.lookup] at h; subst h
    exact delete_s3_shape env rid
  · exfalso
    have e1 : (ty == "lambda") = false := beq_eq_false_iff_ne.mpr h1
    have e2 : (ty == "api_gateway") = false := beq_eq_false_iff_ne.mpr h2
    have e3 : (ty == "sqs") = false := beq_eq_false_iff_ne.mpr h3
    have e4 : (ty == "ec2") = false := beq_eq_false_iff_ne.mpr h4
    have e5 : (ty == "cloudwatch_logs") = false := beq_eq_false_iff_ne.mpr h5
    have e6 : (ty == "ebs") = false := beq_eq_false_iff_ne.mpr h6
    have e7 : (ty == "s3") = false := beq_eq_false_iff_ne.mpr h7
    simp [deletion_methods, List.lookup, e1, e2, e3, e4, e5, e6, e7] at h

theorem run_batch_results (f : String → DeletionResult × List Call) (ids : List String) :
    (run_batch f ids).1 = ids.map (fun rid => (f rid).1) := by
  induction ids with
  | nil => rfl
  | cons rid rest ih => simp [run_batch, ih]

theorem delete_resources_supported (env : Env) (ty : String) (ids : List String)
    (h : supported_type ty = true) :
    (delete_resources env ty ids).1.map DeletionResult.resource = ids ∧
    (delete_resources env ty ids).1.length = ids.length := by
  obtain ⟨f, hf⟩ := supported_lookup env ty h
  unfold delete_resources
  rw [hf, run_batch_results]
  constructor
  · rw [List.map_map]
    have : ∀ rid ∈ ids, (DeletionResult.resource ∘ fun rid => (f rid).1) rid = id rid :=
      fun rid _ => (deletion_methods_lookup_shape env ty f hf rid).1
    rw [List.map_congr_left this, List.map_id]
  · exact List.length_map _ _

/--
**C2.** The claim says `len(results) == sum(len(ids))` with request-then-id
order for every deletion batch.  The code breaks the length equation through
the same slip recorded under C1: a request whose kind is not a key of
`deletion_methods` is silently skipped, contributing zero results, while the
spec requires the caller to "always receive a complete result list sized to
the request".  At the failing input, one `dynamodb` id yields zero results
where the claim requires one; the identical one-id request under the mapped
kind `lambda` yields exactly one result, pinning the divergence to the
unmapped kind.
-/
theorem c2_result_list_shorter_than_request :
    (app_delete_resources envAllOk [("dynamodb", ["tbl-1"])]).1.length = 0 ∧
    ([("dynamodb", ["tbl-1"])].map (fun p => p.2.length)).sum = 1 ∧
    (app_delete_resources envAllOk [("lambda", ["tbl-1"])]).1.length = 1 :=
  ⟨rfl, by decide, rfl⟩

/-- Supporting lemma: restricted to batches whose kinds are all registered in
the method dict, the result list does have one result per requested id, in
request order then id order (the `resource` fields are exactly the requested
ids, concatenated in request order). -/
theorem app_delete_supported_length_and_order (env : Env)
    (selections : List (String × List String))
    (h : ∀ p ∈ selections, supported_type p.1 = true) :
    (app_delete_resources env selections).1.map DeletionResult.resource =
      selections.flatMap Prod.snd ∧
    (app_delete_resources env selections).1.length =
      (selections.map (fun p => p.2.length)).sum := by
  revert h
  induction selections with
  | nil => intro h; exact ⟨rfl, rfl⟩
  | cons p rest ih =>
    intro h
    obtain ⟨ty, ids⟩ := p
    have hty : supported_type ty = true := h _ (List.mem_cons_self _ _)
    have hrest : ∀ q ∈ rest, supported_type q.1 = true :=
      fun q hq => h q (List.mem_cons_of_mem _ hq)
    obtain ⟨ihmap, ihlen⟩ := ih hrest
    obtain ⟨hmap, hlen⟩ := delete_resources_supported env ty ids hty
    cases hemp : ids.isEmpty with
    | true =>
      have hnil : ids = [] := List.isEmpty_iff.mp hemp
      subst hnil
      simp [app_delete_resources, hemp, ihmap, ihlen]
    | false =>
      simp [app_delete_resources, hemp, ihmap, ihlen, hmap, hlen]

/-- Concrete instance of the supporting lemma: two registered-kind requests
with three ids total yield three results in request-then-id order. -/
theorem app_delete_supported_example :
    (app_delete_resources envAllOk [("lambda", ["f1", "f2"]), ("sqs", ["q1"])]).1.map
        DeletionResult.resource = ["f1", "f2", "q1"] ∧
    (app_delete_resources envAllOk [("lambda", ["f1", "f2"]), ("sqs", ["q1"])]).1.length = 3 :=
  ⟨(app_delete_supported_length_and_order envAllOk
      [("lambda", ["f1", "f2"]), ("sqs", ["q1"])] (by decide)).1,
   (app_delete_supported_length_and_order envAllOk
      [("lambda", ["f1", "f2"]), ("sqs", ["q1"])] (by decide)).2⟩

/-- A destroyer environment in which every provider call raises a
`ServiceUnavailable` error. -/
def envProviderFails : Env where
  lambdaDelete := fun _ => .error "ServiceUnavailable"
  apiGatewayDelete := fun _ => .error "ServiceUnavailable"
  sqsDelete := fun _ => .error "ServiceUnavailable"
  ec2Modify := fun _ => .error "ServiceUnavailable"
  ec2Terminate := fun _ => .error "ServiceUnavailable"
  logsDelete := fun _ => .error "ServiceUnavailable"
  ebsDescribe := fun _ => .error "ServiceUnavailable"
  ebsDetach := fun _ => .error "ServiceUnavailable"
  ebsWait := fun _ => .error "ServiceUnavailable"
  ebsDelete := fun _ => .error "ServiceUnavailable"
  s3ListPages := fun _ => .error "ServiceUnavailable"
  s3DeleteObjects := fun _ _ => .error "ServiceUnavailable"
  s3DeleteBucket := fun _ => .error "ServiceUnavailable"

/-- The arns on which `delete_resource`'s index accesses cannot raise: the
arn has at least three `:`-separated parts, and at least six when it contains
a `/`. -/
def arn_parse_ok (arn : String) : Bool :=
  ((py_split arn ':').get? 2).isSome &&
    (!(py_contains arn '/') || ((py_split arn ':').get? 5).isSome)

/--
**C8 counterexample.** The claim says no delete call ever propagates an
exception past its own boundary, every parsing error included.
`ARNssassin.delete_resource` catches only `ClientError`, so on the id
`not-an-arn` (fewer than three `:`-separated parts) the `arn.split(':')[2]`
access raises an uncaught `IndexError`; the surrounding `main` loop then
aborts, never processing the remaining arns of the batch.
-/
theorem c8_counterexample_parse_error_propagates :
    delete_resource arnEnvAllOk "not-an-arn" "us-east-1" =
      .error .indexError ∧
    (arn_loop arnEnvAllOk "us-east-1"
        ["not-an-arn", "arn:aws:sqs:us-east-1:123456789012:q2"]).1 =
      [Event.printed "Error during deletion process"] ∧
    (arn_loop arnEnvAllOk "us-east-1"
        ["not-an-arn", "arn:aws:sqs:us-east-1:123456789012:q2"]).2 = true :=
  ⟨rfl, rfl, rfl⟩

/-- A `marker_batch` error is the error of its `delete_objects` call. -/
theorem marker_batch_error_src (env : Env) (b : String) (p : S3Page) (e : String)
    (h : (marker_batch env b p).1 = some e) :
    env.s3DeleteObjects b p.deleteMarkers = .error e := by
  cases hm : p.deleteMarkers.isEmpty with
  | true => simp [marker_batch, hm] at h
  | false =>
    cases hdel : env.s3DeleteObjects b p.deleteMarkers with
    | ok u => simp [marker_batch, hm, hdel] at h
    | error e2 =>
      simp [marker_batch, hm, hdel] at h
      rw [← h]

/-- A page-drain error is the error of one of the page's `delete_objects`
calls. -/
theorem delete_page_objects_error_src (env : Env) (b : String) (p : S3Page) (e : String)
    (h : (delete_page_objects env b p).1 = some e) :
    ∃ objs, env.s3DeleteObjects b objs = .error e := by
  cases hv : p.versions.isEmpty with
  | true =>
    simp only [delete_page_objects, hv, if_true] at h
    exact ⟨p.deleteMarkers, marker_batch_error_src env b p e h⟩
  | false =>
    cases hdel : env.s3DeleteObjects b p.versions with
    | error e2 =>
      simp [delete_page_objects, hv, hdel] at h
      exact ⟨p.versions, by rw [← h]; exact hdel⟩
    | ok u =>
      simp [delete_page_objects, hv, hdel] at h
      exact ⟨p.deleteMarkers, marker_batch_error_src env b p e h⟩

/-- A bucket-drain error is the error of one of the issued `delete_objects`
calls: the raised exception's message is a provider error message. -/
theorem empty_bucket_error_src (env : Env) (b : String) (pages : List S3Page) (e : String)
    (h : (empty_bucket env b pages).1 = some e) :
    ∃ objs, env.s3DeleteObjects b objs = .error e := by
  induction pages with
  | nil => simp [empty_bucket] at h
  | cons p rest ih =>
    rcases hp : delete_page_objects env b p with ⟨err, cs⟩
    cases err with
    | some e2 =>
      simp [empty_bucket, hp] at h
      exact h ▸ delete_page_objects_error_src env b p e2 (by rw [hp])
    | none =>
      simp [empty_bucket, hp] at h
      exact ih h

/--
**C8 (amended).** In the wipeIt engine every supported-kind delete call
returns exactly one result per id, every result is either `deleted` with no
error or `failed` with an error message, and every provider error is captured
into a `failed` result carrying that provider error's message (stated below
for every failure point of all seven handlers, the raised exception of each
EBS step and of each S3 step included).  In the ARNssassin path,
`delete_resource` never raises on an arn whose index accesses are in range
(`arn_parse_ok`), and a provider `ClientError` in any of its five service
branches is captured into the returned message with the error text appended
verbatim — but an id-parsing `IndexError` escapes its boundary (see the
counterexample).
-/
theorem c8_provider_errors_captured :
    (∀ (env : Env) (ty : String) (ids : List String), supported_type ty = true →
      (delete_resources env ty ids).1.length = ids.length) ∧
    (∀ (env : Env) (ty : String) (ids : List String), supported_type ty = true →
      ∀ r ∈ (delete_resources env ty ids).1,
        r.type = ty ∧
        ((r.outcome = .deleted ∧ r.error = none) ∨
         ∃ e, r.outcome = .failed ∧ r.error = some e)) ∧
    (∀ (env : Env) (rid e : String),
      (env.lambdaDelete rid = .error e →
        delete_lambda env rid =
          (⟨rid, "lambda", .failed, some e⟩, [.deleteFunction rid])) ∧
      (env.apiGatewayDelete rid = .error e →
        delete_api_gateway env rid =
          (⟨rid, "api_gateway", .failed, some e⟩, [.deleteRestApi rid])) ∧
      (env.sqsDelete rid = .error e →
        delete_sqs env rid = (⟨rid, "sqs", .failed, some e⟩, [.deleteQueue rid])) ∧
      (env.logsDelete rid = .error e →
        delete_cloudwatch_logs env rid =
          (⟨rid, "cloudwatch_logs", .failed, some e⟩, [.deleteLogGroup rid])) ∧
      (env.ec2Terminate rid = .error e →
        (delete_ec2 env rid).1 = ⟨rid, "ec2", .failed, some e⟩) ∧
      (env.ebsDescribe rid = .error e →
        (delete_ebs env rid).1 = ⟨rid, "ebs", .failed, some e⟩) ∧
      (∀ atts, env.ebsDescribe rid = .ok atts → atts ≠ [] →
        env.ebsDetach rid = .error e →
        (delete_ebs env rid).1 = ⟨rid, "ebs", .failed, some e⟩) ∧
      (∀ atts, env.ebsDescribe rid = .ok atts → atts ≠ [] →
        env.ebsDetach rid = .ok () → env.ebsWait rid = .error e →
        (delete_ebs env rid).1 = ⟨rid, "ebs", .failed, some e⟩) ∧
      (∀ atts, env.ebsDescribe rid = .ok atts →
        env.ebsDetach rid = .ok () → env.ebsWait rid = .ok () →
        env.ebsDelete rid = .error e →
        (delete_ebs env rid).1 = ⟨rid, "ebs", .failed, some e⟩) ∧
      (env.s3ListPages rid = .error e →
        (delete_s3 env rid).1 = ⟨rid, "s3", .failed, some e⟩) ∧
      (∀ pages, env.s3ListPages rid = .ok pages →
        (empty_bucket env rid pages).1 = some e →
        (delete_s3 env rid).1 = ⟨rid, "s3", .failed, some e⟩ ∧
        ∃ objs, env.s3DeleteObjects rid objs = .error e) ∧
      (∀ pages, env.s3ListPages rid = .ok pages →
        (empty_bucket env rid pages).1 = none →
        env.s3DeleteBucket rid = .error e →
        (delete_s3 env rid).1 = ⟨rid, "s3", .failed, some e⟩)) ∧
    (∀ (env : ArnEnv) (arn region : String), arn_parse_ok arn = true →
      ∃ out, delete_resource env arn region = .ok out) ∧
    (∀ (env : ArnEnv) (arn region rt e : String),
      arn_resource_type arn = some rt →
      ((arn_service arn = some "ec2" → rt = "instance" →
         env.ec2Terminate (arn_resource_id arn) = .error e →
         delete_resource env arn region =
           .ok ("Error deleting " ++ arn ++ ": " ++ e,
                [.terminateInstances (arn_resource_id arn)])) ∧
       (arn_service arn = some "rds" → rt = "db" →
         env.rdsDelete (arn_resource_id arn) = .error e →
         delete_resource env arn region =
           .ok ("Error deleting " ++ arn ++ ": " ++ e,
                [.deleteDbInstance (arn_resource_id arn)])) ∧
       (arn_service arn = some "sqs" →
         env.sqsDelete (arn_resource_id arn) = .error e →
         delete_resource env arn region =
           .ok ("Error deleting " ++ arn ++ ": " ++ e,
                [.deleteQueue (arn_resource_id arn)])) ∧
       (arn_service arn = some "secretsmanager" →
         env.secretsDelete (arn_resource_id arn) = .error e →
         delete_resource env arn region =
           .ok ("Error deleting " ++ arn ++ ": " ++ e,
                [.deleteSecret (arn_resource_id arn)])) ∧
       (arn_service arn = some "s3" →
         env.s3DeleteBucket (arn_resource_id arn) = .error e →
         delete_resource env arn region =
           .ok ("Error deleting " ++ arn ++ ": " ++ e,
                [.deleteBucket (arn_resource_id arn)])))) := by
  refine ⟨?_, ?_, ?_, ?_, ?_⟩
  · intro env ty ids h
    exact (delete_resources_supported env ty ids h).2
  · intro env ty ids h r hr
    obtain ⟨f, hf⟩ := supported_lookup env ty h
    unfold delete_resources at hr
    rw [hf, run_batch_results] at hr
    obtain ⟨rid, _, hrid⟩ := List.mem_map.mp hr
    have hs := deletion_methods_lookup_shape env ty f hf rid
    rw [hrid] at hs
    exact ⟨hs.2.1, hs.2.2⟩
  · intro env rid e
    refine ⟨?_, ?_, ?_, ?_, ?_, ?_, ?_, ?_, ?_, ?_, ?_, ?_⟩
    · intro h; simp [delete_lambda, h]
    · intro h; simp [delete_api_gateway, h]
    · intro h; simp [delete_sqs, h]
    · intro h; simp [delete_cloudwatch_logs, h]
    · intro h; simp [delete_ec2, h]
    · intro h; simp [delete_ebs, h]
    · intro atts hdesc hatt hdet
      have hne : atts.isEmpty = false := by
        cases atts with
        | nil => exact absurd rfl hatt
        | cons a l => rfl
      simp [delete_ebs, hdesc, hne, hdet]
    · intro atts hdesc hatt hdet hwait
      have hne : atts.isEmpty = false := by
        cases atts with
        | nil => exact absurd rfl hatt
        | cons a l => rfl
      simp [delete_ebs, hdesc, hne, hdet, hwait]
    · intro atts hdesc hdet hwait hdel
      cases hne : atts.isEmpty with
      | true => simp [delete_ebs, hdesc, hne, hdel]
      | false => simp [delete_ebs, hdesc, hne, hdet, hwait, hdel]
    · intro h; simp [delete_s3, h]
    · intro pages hlist hdrain
      refine ⟨?_, empty_bucket_error_src env rid pages e hdrain⟩
      rcases h2 : empty_bucket env rid pages with ⟨err, cs⟩
      rw [h2] at hdrain
      have herr : err = some e := hdrain
      subst herr
      simp [delete_s3, hlist, h2]
    · intro pages hlist hnone hdel
      rcases h2 : empty_bucket env rid pages with ⟨err, cs⟩
      rw [h2] at hnone
      have herr : err = none := hnone
      subst herr
      simp [delete_s3, hlist, h2, hdel]
  · intro env arn region h
    simp only [arn_parse_ok, Bool.and_eq_true, Option.isSome_iff_exists,
      Bool.or_eq_true, Bool.not_eq_true'] at h
    obtain ⟨⟨service, hs⟩, h2⟩ := h
    have hrt : ∃ rt, arn_resource_type arn = some rt := by
      unfold arn_resource_type
      cases hcont : py_contains arn '/'
      · exact ⟨"", by simp⟩
      · rcases h2 with h2 | ⟨seg, hseg⟩
        · rw [hcont] at h2; cases h2
        · rw [hseg]; exact ⟨(py_split seg '/').headD "", by simp [hcont]⟩
    obtain ⟨rt, hrtv⟩ := hrt
    simp only [delete_resource, arn_service, hs, hrtv]
    repeat' split
    all_goals exact ⟨_, rfl⟩
  · intro env arn region rt e hrt
    refine ⟨?_, ?_, ?_, ?_, ?_⟩
    · intro hs hrtEq hdel
      subst hrtEq
      simp [delete_resource, hs, hrt, arn_step, hdel]
    · intro hs hrtEq hdel
      subst hrtEq
      simp [delete_resource, hs, hrt, arn_step, hdel]
    · intro hs hdel
      simp [delete_resource, hs, hrt, arn_step, hdel]
    · intro hs hdel
      simp [delete_resource, hs, hrt, arn_step, hdel]
    · intro hs hdel
      simp [delete_resource, hs, hrt, arn_step, hdel]

/-- An ARNssassin environment whose SQS delete raises a `ClientError` with
message `AccessDenied`. -/
def arnEnvSqsFails : ArnEnv where
  ec2Terminate := fun _ => .ok ()
  rdsDelete := fun _ => .ok ()
  sqsDelete := fun _ => .error "AccessDenied"
  secretsDelete := fun _ => .ok ()
  s3DeleteBucket := fun _ => .ok ()

/-- Witness for **C8 (amended)**: a failing lambda provider call yields the
`failed` result carrying its message; a two-id batch still yields two
results; a failing SQS `ClientError` reaches the ARNssassin message verbatim;
and a well-formed s3 arn never raises. -/
theorem c8_provider_errors_captured_witness :
    envProviderFails.lambdaDelete "f1" = .error "ServiceUnavailable" ∧
    delete_lambda envProviderFails "f1" =
      (⟨"f1", "lambda", .failed, some "ServiceUnavailable"⟩, [.deleteFunction "f1"]) ∧
    (delete_resources envProviderFails "lambda" ["f1", "f2"]).1.length = 2 ∧
    delete_resource arnEnvSqsFails "arn:aws:sqs:us-east-1:123456789012:myqueue"
        "us-east-1" =
      .ok ("Error deleting arn:aws:sqs:us-east-1:123456789012:myqueue: AccessDenied",
           [Call.deleteQueue "myqueue"]) ∧
    (∃ out, delete_resource arnEnvAllOk "arn:aws:s3:::bkt" "us-east-1" = .ok out) :=
  ⟨rfl,
   (c8_provider_errors_captured.2.2.1 envProviderFails "f1" "ServiceUnavailable").1 rfl,
   c8_provider_errors_captured.1 envProviderFails "lambda" ["f1", "f2"] (by decide),
   (c8_provider_errors_captured.2.2.2.2 arnEnvSqsFails
      "arn:aws:sqs:us-east-1:123456789012:myqueue" "us-east-1" "" "AccessDenied"
      rfl).2.2.1 rfl rfl,
   c8_provider_errors_captured.2.2.2.1 arnEnvAllOk "arn:aws:s3:::bkt" "us-east-1"
     (by decide)⟩

/-- `deletes_gated` holds over any tail once an affirmative confirmation has
been seen. -/
theorem deletes_gated_of_seen (t : List Event) : deletes_gated t true = true := by
  induction t with
  | nil => rfl
  | cons e rest ih => cases e <;> simp [deletes_gated, ih]

/--
**C9 counterexample.** The claim says no delete call of any kind is ever
issued without a completed confirmation step, but the wipeIt `/api/delete`
handler issues provider delete calls directly from the posted selections:
its run contains a delete call and no confirmation event at all.
-/
theorem c9_counterexample_web_deletes_unconfirmed :
    deletes_gated (run_entry sysAllOk (Entry.web [("lambda", ["f"])])) false = false ∧
    provider_calls (run_entry sysAllOk (Entry.web [("lambda", ["f"])])) =
      [Call.deleteFunction "f"] :=
  ⟨rfl, rfl⟩

/--
**C9 (amended).** In the ARNssassin CLI every delete call is gated behind the
confirmation prompt: the full arn list is shown first, and unless the
stripped, lowercased reply is exactly `y` no provider call of any kind is
issued.  The wipeIt `/api/delete` HTTP handler contains no confirmation step
in the served code (see the counterexample); there, confirmation is delegated
to the excluded browser front end.
-/
theorem c9_cli_confirmation_gate (env : ArnEnv) (arns : List String)
    (confirmation region : String) :
    deletes_gated (arnssassin_main env arns confirmation region) false = true ∧
    (py_lower (py_strip confirmation) ≠ "y" →
      provider_calls (arnssassin_main env arns confirmation region) = []) ∧
    (arns ≠ [] →
      (arnssassin_main env arns confirmation region).head? =
        some (.promptShown arns)) := by
  unfold arnssassin_main
  cases harns : arns.isEmpty with
  | true =>
    simp only [if_true]
    exact ⟨rfl, fun _ => rfl, fun hne => absurd (List.isEmpty_iff.mp harns) hne⟩
  | false =>
    simp only [Bool.false_eq_true, if_false]
    by_cases hconf : py_lower (py_strip confirmation) = "y"
    · simp only [hconf, ne_eq, not_true_eq_false, if_false]
      refine ⟨?_, fun hne => hne.elim, fun _ => rfl⟩
      simp only [deletes_gated]
      exact deletes_gated_of_seen _
    · simp only [ne_eq, hconf, not_false_eq_true, if_true]
      exact ⟨rfl, fun _ => rfl, fun _ => rfl⟩

/-- Witness for **C9 (amended)**: a one-arn selection answered `n` is shown
in full, gated, and produces no provider call. -/
theorem c9_cli_confirmation_gate_witness :
    deletes_gated (arnssassin_main arnEnvAllOk ["arn:aws:s3:::bkt"] "n" "us-east-1")
        false = true ∧
    py_lower (py_strip "n") ≠ "y" ∧
    provider_calls (arnssassin_main arnEnvAllOk ["arn:aws:s3:::bkt"] "n" "us-east-1") = [] ∧
    (arnssassin_main arnEnvAllOk ["arn:aws:s3:::bkt"] "n" "us-east-1").head? =
      some (.promptShown ["arn:aws:s3:::bkt"]) :=
  ⟨(c9_cli_confirmation_gate arnEnvAllOk ["arn:aws:s3:::bkt"] "n" "us-east-1").1,
   by decide,
   (c9_cli_confirmation_gate arnEnvAllOk ["arn:aws:s3:::bkt"] "n" "us-east-1").2.1 (by decide),
   (c9_cli_confirmation_gate arnEnvAllOk ["arn:aws:s3:::bkt"] "n" "us-east-1").2.2 (by decide)⟩

/-! ## Helper lemmas for the bucket-draining claim -/

/-- Every object version and delete marker listed across the pages. -/
def all_entries (pages : List S3Page) : List (String × String) :=
  pages.flatMap fun p => p.versions ++ p.deleteMarkers

/-- The `(Key, VersionId)` pairs covered by `delete_objects` calls on `b`
issued strictly before the first `delete_bucket` call on `b`. -/
def deleted_before_bucket_delete (b : String) : List Call → List (String × String)
  | [] => []
  | .deleteBucket b' :: rest =>
    if b' = b then [] else deleted_before_bucket_delete b rest
  | .deleteObjects b' objs :: rest =>
    (if b' = b then objs else []) ++ deleted_before_bucket_delete b rest
  | _ :: rest => deleted_before_bucket_delete b rest

theorem marker_batch_calls (env : Env) (b : String) (p : S3Page) (c : Call)
    (hc : c ∈ (marker_batch env b p).2) : ∃ objs, c = Call.deleteObjects b objs := by
  cases hm : p.deleteMarkers.isEmpty with
  | true => simp [marker_batch, hm] at hc
  | false =>
    cases hdel : env.s3DeleteObjects b p.deleteMarkers with
    | ok u => simp [marker_batch, hm, hdel] at hc; exact ⟨_, hc⟩
    | error e => simp [marker_batch, hm, hdel] at hc; exact ⟨_, hc⟩

theorem delete_page_objects_calls (env : Env) (b : String) (p : S3Page) (c : Call)
    (hc : c ∈ (delete_page_objects env b p).2) :
    ∃ objs, c = Call.deleteObjects b objs := by
  cases hv : p.versions.isEmpty with
  | true =>
    simp only [delete_page_objects, hv, if_true] at hc
    exact marker_batch_calls env b p c hc
  | false =>
    cases hdel : env.s3DeleteObjects b p.versions with
    | error e =>
      simp [delete_page_objects, hv, hdel] at hc
      exact ⟨_, hc⟩
    | ok u =>
      simp [delete_page_objects, hv, hdel] at hc
      rcases hc with h | h
      · exact ⟨_, h⟩
      · exact marker_batch_calls env b p c h

theorem empty_bucket_calls (env : Env) (b : String) (pages : List S3Page) (c : Call)
    (hc : c ∈ (empty_bucket env b pages).2) :
    ∃ objs, c = Call.deleteObjects b objs := by
  induction pages with
  | nil => simp [empty_bucket] at hc
  | cons p rest ih =>
    rcases hp : delete_page_objects env b p with ⟨err, cs⟩
    cases err with
    | some e =>
      simp [empty_bucket, hp] at hc
      exact delete_page_objects_calls env b p c (by rw [hp]; exact hc)
    | none =>
      simp [empty_bucket, hp] at hc
      rcases hc with h | h
      · exact delete_page_objects_calls env b p c (by rw [hp]; exact h)
      · exact ih h

theorem marker_batch_cover (env : Env) (b : String) (p : S3Page)
    (hnone : (marker_batch env b p).1 = none) (kv : String × String)
    (hkv : kv ∈ p.deleteMarkers) :
    Call.deleteObjects b p.deleteMarkers ∈ (marker_batch env b p).2 := by
  cases hm : p.deleteMarkers.isEmpty with
  | true => rw [List.isEmpty_iff.mp hm] at hkv; simp at hkv
  | false =>
    cases hdel : env.s3DeleteObjects b p.deleteMarkers with
    | ok u => simp [marker_batch, hm, hdel]
    | error e => simp [marker_batch, hm, hdel] at hnone

theorem delete_page_objects_cover (env : Env) (b : String) (p : S3Page)
    (hnone : (delete_page_objects env b p).1 = none) (kv : String × String)
    (hkv : kv ∈ p.versions ++ p.deleteMarkers) :
    ∃ objs, Call.deleteObjects b objs ∈ (delete_page_objects env b p).2 ∧ kv ∈ objs := by
  cases hv : p.versions.isEmpty with
  | true =>
    have hvn : p.versions = [] := List.isEmpty_iff.mp hv
    rw [hvn, List.nil_append] at hkv
    have hmn : (marker_batch env b p).1 = none := by
      simp only [delete_page_objects, hv, if_true] at hnone
      exact hnone
    refine ⟨p.deleteMarkers, ?_, hkv⟩
    simp only [delete_page_objects, hv, if_true]
    exact marker_batch_cover env b p hmn kv hkv
  | false =>
    cases hdel : env.s3DeleteObjects b p.versions with
    | error e => simp [delete_page_objects, hv, hdel] at hnone
    | ok u =>
      have hmn : (marker_batch env b p).1 = none := by
        simp [delete_page_objects, hv, hdel] at hnone
        exact hnone
      rcases List.mem_append.mp hkv with h | h
      · exact ⟨p.versions, by simp [delete_page_objects, hv, hdel], h⟩
      · refine ⟨p.deleteMarkers, ?_, h⟩
        simp only [delete_page_objects, hv, Bool.false_eq_true, if_false, hdel]
        exact List.mem_cons_of_mem _ (marker_batch_cover env b p hmn kv h)

theorem empty_bucket_cover (env : Env) (b : String) (pages : List S3Page)
    (hnone : (empty_bucket env b pages).1 = none) (kv : String × String)
    (hkv : kv ∈ all_entries pages) :
    ∃ objs, Call.deleteObjects b objs ∈ (empty_bucket env b pages).2 ∧ kv ∈ objs := by
  induction pages with
  | nil => simp [all_entries] at hkv
  | cons p rest ih =>
    rcases hp : delete_page_objects env b p with ⟨err, cs⟩
    cases err with
    | some e => simp [empty_bucket, hp] at hnone
    | none =>
      have hrest : (empty_bucket env b rest).1 = none := by
        simp [empty_bucket, hp] at hnone
        exact hnone
      simp only [all_entries, List.flatMap_cons, List.mem_append] at hkv
      rcases hkv with h | h
      · obtain ⟨objs, hmem, hkvo⟩ :=
          delete_page_objects_cover env b p (by rw [hp]) kv (List.mem_append.mpr h)
        rw [hp] at hmem
        refine ⟨objs, ?_, hkvo⟩
        simp [empty_bucket, hp]
        exact Or.inl hmem
      · obtain ⟨objs, hmem, hkvo⟩ := ih hrest h
        refine ⟨objs, ?_, hkvo⟩
        simp [empty_bucket, hp]
        exact Or.inr hmem

theorem mem_deleted_before (b : String) (cs t : List Call)
    (objs : List (String × String)) (kv : String × String)
    (hall : ∀ c ∈ cs, ∃ o, c = Call.deleteObjects b o)
    (hmem : Call.deleteObjects b objs ∈ cs) (hkv : kv ∈ objs) :
    kv ∈ deleted_before_bucket_delete b (cs ++ t) := by
  induction cs with
  | nil => simp at hmem
  | cons c rest ih =>
    obtain ⟨o, ho⟩ := hall c (List.mem_cons_self _ _)
    subst ho
    simp only [List.cons_append, deleted_before_bucket_delete, if_pos rfl,
      List.mem_append]
    rcases List.mem_cons.mp hmem with h | h
    · left
      have : objs = o := by
        injection h
      rw [← this]
      exact hkv
    · right
      exact ih (fun c hc => hall c (List.mem_cons_of_mem _ hc)) h

/--
**C4.** `delete_s3` drains the bucket before deleting it: whenever the final
`delete_bucket` call is issued, every object version and every delete marker
of every listed page was covered by a batched `delete_objects` call issued
earlier in the trace; and when the draining loop raises no exception the
trace is exactly the draining calls followed by the single `delete_bucket`
call.
-/
theorem c4_bucket_drained_before_delete (env : Env) (bucket : String)
    (pages : List S3Page) (hlist : env.s3ListPages bucket = .ok pages) :
    (∀ kv ∈ all_entries pages,
      Call.deleteBucket bucket ∈ (delete_s3 env bucket).2 →
      kv ∈ deleted_before_bucket_delete bucket (delete_s3 env bucket).2) ∧
    ((empty_bucket env bucket pages).1 = none →
      (delete_s3 env bucket).2 =
        (empty_bucket env bucket pages).2 ++ [Call.deleteBucket bucket]) := by
  constructor
  · intro kv hkv hdb
    rcases hdrain : empty_bucket env bucket pages with ⟨err, cs⟩
    cases err with
    | some e =>
      have htrace : (delete_s3 env bucket).2 = cs := by
        simp [delete_s3, hlist, hdrain]
      rw [htrace] at hdb
      obtain ⟨o, ho⟩ :=
        empty_bucket_calls env bucket pages _ (by rw [hdrain]; exact hdb)
      simp at ho
    | none =>
      have htrace : (delete_s3 env bucket).2 = cs ++ [Call.deleteBucket bucket] := by
        cases hdel : env.s3DeleteBucket bucket <;>
          simp [delete_s3, hlist, hdrain, hdel]
      rw [htrace]
      obtain ⟨objs, hmem, hkvo⟩ :=
        empty_bucket_cover env bucket pages (by rw [hdrain]) kv hkv
      rw [hdrain] at hmem
      exact mem_deleted_before bucket cs _ objs kv
        (fun c hc => empty_bucket_calls env bucket pages c (by rw [hdrain]; exact hc))
        hmem hkvo
  · intro hnone
    rcases hdrain : empty_bucket env bucket pages with ⟨err, cs⟩
    rw [hdrain] at hnone
    cases hnone
    cases hdel : env.s3DeleteBucket bucket <;>
      simp [delete_s3, hlist, hdrain, hdel]

/-- A one-page bucket listing used in the **C4** witness: two object versions
and one delete marker. -/
def pageW : S3Page := ⟨[("k1", "v1"), ("k2", "v2")], [("k1", "dm1")]⟩

/-- A destroyer environment whose bucket listing returns `pageW`. -/
def envS3W : Env :=
  { envAllOk with s3ListPages := fun _ => .ok [pageW] }

/-- Witness for **C4**: deleting the bucket `bkt` issues its `delete_bucket`
call, and the delete marker `("k1", "dm1")` was covered by a `delete_objects`
call before it. -/
theorem c4_bucket_drained_before_delete_witness :
    envS3W.s3ListPages "bkt" = .ok [pageW] ∧
    Call.deleteBucket "bkt" ∈ (delete_s3 envS3W "bkt").2 ∧
    ("k1", "dm1") ∈ deleted_before_bucket_delete "bkt" (delete_s3 envS3W "bkt").2 :=
  ⟨rfl,
   by decide,
   (c4_bucket_drained_before_delete envS3W "bkt" [pageW] rfl).1
     ("k1", "dm1") (by decide) (by decide)⟩

end AwsToolz
